import Mathlib

/-!
Verification development for the code-generator repository
(FastAPI backend: `app/api/routes.py`, `app/services/generation_service_new.py`,
`app/tools/filesystem.py`).

The filesystem is modelled as an association list from paths (lists of
segments) to entries.  Route-level path arithmetic (`os.path.join`,
`os.path.abspath`, `str.startswith`) is modelled on strings, exactly as the
source performs it, because the security checks in `routes.py` are string
prefix checks.
-/

namespace CodeGen

/-- Model of a filesystem path as a list of name segments. -/
abbrev FPath := List String

/-- Model of a filesystem entry: a regular file with textual content, or a
directory. -/
inductive FEntry
| file (content : String)
| dir
deriving DecidableEq, Repr

/-- Model of the filesystem: an association list from paths to entries
(leftmost binding wins). -/
structure Fs where
  entries : List (FPath × FEntry)
deriving DecidableEq, Repr

/-- Look up the entry stored at a path. -/
def Fs.lookup (fs : Fs) (p : FPath) : Option FEntry :=
  (fs.entries.find? (fun e => e.1 = p)).map (fun e => e.2)

/-- Model of `os.path.exists` restricted to keys present in the map. -/
def Fs.existsP (fs : Fs) (p : FPath) : Bool :=
  (fs.lookup p).isSome

/-- Model of `os.path.isdir` restricted to keys present in the map. -/
def Fs.isdir (fs : Fs) (p : FPath) : Bool :=
  fs.lookup p = some .dir

/-- Model of `os.path.exists`: the root (empty path) always exists. -/
def Fs.pyExists (fs : Fs) (p : FPath) : Bool :=
  p = [] || fs.existsP p

/-- Model of `os.path.isdir` where the root always counts as a directory. -/
def Fs.pyIsdir (fs : Fs) (p : FPath) : Bool :=
  p = [] || fs.isdir p

/-- Remove every binding of a path. -/
def Fs.erase (fs : Fs) (p : FPath) : Fs :=
  ⟨fs.entries.filter (fun e => !(e.1 = p : Bool))⟩

/-- Store an entry at a path, replacing any previous binding. -/
def Fs.insert (fs : Fs) (p : FPath) (e : FEntry) : Fs :=
  ⟨(p, e) :: (fs.erase p).entries⟩

theorem Fs.lookup_insert_self (fs : Fs) (p : FPath) (e : FEntry) :
    (fs.insert p e).lookup p = some e := by
  simp [Fs.insert, Fs.lookup, List.find?]

theorem Fs.lookup_erase_ne (fs : Fs) (p q : FPath) (h : q ≠ p) :
    (fs.erase p).lookup q = fs.lookup q := by
  simp only [Fs.erase, Fs.lookup]
  induction fs.entries with
  | nil => rfl
  | cons a as ih =>
    by_cases hp : a.1 = p
    · have hpq : ¬ p = q := fun hh => h hh.symm
      simp only [List.filter_cons, hp, decide_True, Bool.not_true, Bool.false_eq_true,
        if_false, List.find?_cons, hpq, decide_False]
      exact ih
    · by_cases haq : a.1 = q
      · simp [List.filter_cons, hp, List.find?_cons, haq, h]
      · simp only [List.filter_cons, hp, decide_False, Bool.not_false, if_true,
          List.find?_cons, haq]
        exact ih

theorem Fs.lookup_erase_self (fs : Fs) (p : FPath) :
    (fs.erase p).lookup p = none := by
  simp only [Fs.erase, Fs.lookup]
  induction fs.entries with
  | nil => rfl
  | cons a as ih =>
    by_cases hp : a.1 = p
    · simp only [List.filter_cons, hp, decide_True, Bool.not_true, if_neg, Bool.false_eq_true,
        not_false_eq_true]
      exact ih
    · simp only [List.filter_cons, hp, decide_False, Bool.not_false, if_pos, List.find?_cons]
      exact ih

theorem Fs.lookup_insert_ne (fs : Fs) (p q : FPath) (e : FEntry) (h : q ≠ p) :
    (fs.insert p e).lookup q = fs.lookup q := by
  have := Fs.lookup_erase_ne fs p q h
  simp only [Fs.insert, Fs.lookup, List.find?] at *
  have hq : decide (p = q) = false := by
    simp [decide_eq_false_iff_not]
    intro hpq
    exact h hpq.symm
  simp [hq]
  exact this

/-- Compute the lookup of an insert in one step. -/
theorem Fs.lookup_insert (fs : Fs) (p q : FPath) (e : FEntry) :
    (fs.insert p e).lookup q = if q = p then some e else fs.lookup q := by
  by_cases h : q = p
  · subst h; simp [Fs.lookup_insert_self]
  · simp [h, Fs.lookup_insert_ne fs p q e h]

/-!
String-level path arithmetic, modelling the posix behaviour of
`os.path.join`, `os.path.abspath`, `os.path.dirname` and `str.startswith`
used by `routes.py`.
-/

/-- Normalisation of the segments of an absolute posix path: drop `.`
segments and resolve `..` segments against the accumulator, clamping at the
root, exactly as `posixpath.normpath` does for absolute paths.  The first
argument is the already-processed prefix in reverse order. -/
def normAux : List String → List String → List String
| acc, [] => acc.reverse
| acc, "." :: rest => normAux acc rest
| acc, ".." :: rest => normAux (acc.drop 1) rest
| acc, x :: rest => normAux (x :: acc) rest

/-- Split a character list on `/`; the accumulator holds the current
segment in reverse. -/
def splitSlashAux : List Char → List Char → List String
| [], acc => [String.mk acc.reverse]
| c :: rest, acc =>
  if c = '/' then String.mk acc.reverse :: splitSlashAux rest []
  else splitSlashAux rest (c :: acc)

/-- Split a path string on `/` and drop empty segments. -/
def splitSlash (s : String) : List String :=
  (splitSlashAux s.toList []).filter (fun x => !(x = "" : Bool))

/-- Segment list of an absolute path string, fully normalised
(`os.path.abspath` applied to an absolute path, viewed as segments). -/
def segsOf (s : String) : FPath :=
  normAux [] (splitSlash s)

/-- Segment list of a relative path string as the tools see it: split on
`/`, dropping empty and `.` segments.  Tool-level paths are assumed not to
contain `..` segments (the theorems make this explicit where it matters). -/
def segsRel (s : String) : FPath :=
  (splitSlash s).filter (fun x => !(x = "." : Bool))

/-- Render a normalised absolute segment list back to a path string. -/
def joinSegsAbs (l : FPath) : String :=
  "/" ++ String.intercalate "/" l

/-- Model of posix `os.path.isabs`: the path starts with `/`. -/
def isAbs (s : String) : Bool :=
  match s.toList with
  | '/' :: _ => true
  | _ => false

/-- Model of posix `os.path.join` for two arguments: an absolute second
argument discards the first. -/
def pyJoin (a b : String) : String :=
  if isAbs b then b else a ++ "/" ++ b

/-- Model of `os.path.abspath` on an absolute input: normalise the path.
Every call site in `routes.py` applies it to a join rooted at the absolute
configured output directory. -/
def pyAbspath (s : String) : String :=
  joinSegsAbs (segsOf s)

/-- Model of `os.path.abspath` with an explicit current working directory,
for inputs that may be relative (used to model `os.chdir`). -/
def pyAbspathCwd (cwd s : String) : String :=
  if isAbs s then pyAbspath s else pyAbspath (cwd ++ "/" ++ s)

/-- Model of Python `str.startswith`: string prefix test on the character
lists.  This is exactly the (string-level, not path-level) check used by
the path-traversal guards in `routes.py`. -/
def startsWithStr (s p : String) : Bool :=
  p.toList.isPrefixOf s.toList

/-- Test whether a relative-path string contains a `..` segment. -/
def hasDotDot (s : String) : Bool :=
  (splitSlash s).contains ".."

/-- Path-level test that an absolute path string lies inside (or equals) a
directory, via segment lists.  This is what escaping a directory actually
means, as opposed to the string prefix check the source performs. -/
def insideDir (p d : String) : Bool :=
  (segsOf d).isPrefixOf (segsOf p)

/-!
Filesystem primitives shared by the tools and the service layer:
`os.makedirs`, `open(..., "w")`, `open(..., "r")`.
-/

/-- Nonempty prefixes of a segment path, shortest first: the directories
`os.makedirs` visits. -/
def prefixesNE (p : FPath) : List FPath :=
  (List.range p.length).map (fun i => p.take (i + 1))

/-- Create, in order, each directory of a list of paths that is missing;
stop with an error if one of them exists as a regular file.  The partially
updated filesystem is kept on error, as on a real filesystem. -/
def makedirsList : Fs → List FPath → Fs × Option String
| fs, [] => (fs, none)
| fs, p :: rest =>
  match fs.lookup p with
  | some (.file _) => (fs, some "NotADirectoryError")
  | some .dir => makedirsList fs rest
  | none => makedirsList (fs.insert p .dir) rest

/-- Model of `os.makedirs(p, exist_ok=existOk)`. -/
def makedirs (fs : Fs) (p : FPath) (existOk : Bool) : Fs × Option String :=
  if !existOk && fs.pyExists p then (fs, some "FileExistsError")
  else makedirsList fs (prefixesNE p)

/-- Model of `open(p, "w")` followed by writing `content`: requires the
parent to be a directory (the root counts) and `p` not to be a directory. -/
def openWrite (fs : Fs) (p : FPath) (content : String) : Fs × Option String :=
  if fs.pyIsdir p.dropLast && !(fs.lookup p = some FEntry.dir : Bool) && !(p = [] : Bool) then
    (fs.insert p (.file content), none)
  else (fs, some "OSError")

/-- Python exception kinds distinguished by the service layer. -/
inductive PyErr
| fileNotFound
| other (msg : String)
deriving DecidableEq, Repr

/-- Model of `open(p, "r").read()`. -/
def openRead (fs : Fs) (p : FPath) : Except PyErr String :=
  match fs.lookup p with
  | some (.file c) => .ok c
  | some .dir => .error (.other "IsADirectoryError")
  | none => .error .fileNotFound

/-!
Service layer: `CodeGenerationService` in
`app/services/generation_service_new.py`.
-/

/-- Embedding of `CodeGenerationService.read_file_content`: raise
`FileNotFoundError` when the path does not exist, otherwise read it. -/
def read_file_content (fs : Fs) (file_path : String) : Except PyErr String :=
  if !(fs.pyExists (segsOf file_path)) then .error .fileNotFound
  else openRead fs (segsOf file_path)

/-- Embedding of `CodeGenerationService.write_file_content`: create the
parent directory when it does not exist, then open the file for writing;
any failure is wrapped in an `IOError`. -/
def write_file_content (fs : Fs) (file_path content : String) :
    Except PyErr Fs :=
  let segs := segsOf file_path
  let parent := segs.dropLast
  let step1 : Fs × Option String :=
    if !(fs.pyExists parent) then makedirs fs parent false else (fs, none)
  match step1.2 with
  | some m => .error (.other ("Could not write to file at " ++ file_path ++ ": " ++ m))
  | none =>
    match openWrite step1.1 segs content with
    | (fs2, none) => .ok fs2
    | (_, some m) =>
      .error (.other ("Could not write to file at " ++ file_path ++ ": " ++ m))

/-- Computation of `os.path.relpath(p, start)` at the segment level: the
segments after the common prefix, preceded by one `..` for each remaining
segment of `start`. -/
def commonPrefixLen : List String → List String → Nat
| a :: as, b :: bs => if a = b then 1 + commonPrefixLen as bs else 0
| _, _ => 0

/-- Segment-level `os.path.relpath`. -/
def relpathSegs (p s : FPath) : FPath :=
  List.replicate (s.length - commonPrefixLen p s) ".." ++ p.drop (commonPrefixLen p s)

/-- One node of the file tree returned by `list_directory_recursive`:
name, the `path` field (as segments of the relative path string the source
computes), the `type` field, and the children. -/
inductive Node
| mk (name : String) (path : FPath) (type : String) (children : List Node)

/-- Name field of a node. -/
def Node.name : Node → String
| .mk n _ _ _ => n

/-- Path field of a node. -/
def Node.path : Node → FPath
| .mk _ p _ _ => p

/-- Children field of a node. -/
def Node.children : Node → List Node
| .mk _ _ _ c => c

/-- The entries `os.scandir(p)` yields: bindings whose path is one segment
below `p`, in storage order. -/
def childEntries (fs : Fs) (p : FPath) : List (FPath × FEntry) :=
  fs.entries.filter (fun e => !(e.1 = [] : Bool) && (e.1.dropLast = p : Bool))

/-- Embedding of `CodeGenerationService.list_directory_recursive`.  Each
node's `path` field is `os.path.relpath(entry.path, start=os.path.dirname(path))`.
The `fuel` argument is a termination device for the recursion over the flat
filesystem map; callers pass a bound that dominates the tree depth. -/
def list_directory_recursive (fs : Fs) : Nat → FPath → List Node
| 0, _ => []
| fuel + 1, p =>
  (childEntries fs p).map (fun e =>
    Node.mk (e.1.getLastD "") (relpathSegs e.1 p.dropLast)
      (if e.2 = FEntry.dir then "directory" else "file")
      (if e.2 = FEntry.dir then list_directory_recursive fs fuel e.1 else []))

/-!
HTTP routes: `app/api/routes.py`.
-/

/-- Model of a raised `fastapi.HTTPException`. -/
inductive HErr
| mk (status : Nat) (detail : String)
deriving DecidableEq, Repr

/-- Status code of an HTTP error. -/
def HErr.status : HErr → Nat
| .mk s _ => s

/-- A 4xx response. -/
def HErr.isClientError (e : HErr) : Bool :=
  400 ≤ e.status && e.status < 500

/-- Embedding of `get_safe_project_path`: resolve the project directory
under the base directory, reject when the resolved string does not start
with the base directory string, then require the directory to exist. -/
def get_safe_project_path (fs : Fs) (base_dir project_name : String) :
    Except HErr String :=
  let project_path := pyAbspath (pyJoin base_dir project_name)
  if !(startsWithStr project_path (pyAbspath base_dir)) then
    .error (.mk 400 "Invalid path: Path traversal detected.")
  else if !(fs.pyIsdir (segsOf project_path)) then
    .error (.mk 404 ("Project directory not found at: " ++ project_path))
  else .ok project_path

/-- Embedding of the `GET /files/tree` endpoint. -/
def get_file_tree (fs : Fs) (outRoot project_name : String) :
    Except HErr (List Node) :=
  match get_safe_project_path fs outRoot project_name with
  | .error e => .error e
  | .ok project_path =>
    .ok (list_directory_recursive fs fs.entries.length (segsOf project_path))

/-- Embedding of the `GET /files/content` endpoint. -/
def get_file_content (fs : Fs) (outRoot project_name relative_path : String) :
    Except HErr String :=
  match get_safe_project_path fs outRoot project_name with
  | .error e => .error e
  | .ok project_path =>
    let file_path := pyAbspath (pyJoin project_path relative_path)
    if !(startsWithStr file_path project_path) then
      .error (.mk 400 "Invalid path: Path traversal detected.")
    else
      match read_file_content fs file_path with
      | .ok c => .ok c
      | .error .fileNotFound => .error (.mk 404 "File not found.")
      | .error (.other m) => .error (.mk 500 ("Failed to read file: " ++ m))

/-- Embedding of the `POST /files/content` endpoint.  The filesystem is
returned on every path so that the absence of mutation is observable. -/
def write_file_content_endpoint (fs : Fs)
    (outRoot project_name relative_path content : String) :
    Except HErr String × Fs :=
  match get_safe_project_path fs outRoot project_name with
  | .error e => (.error e, fs)
  | .ok project_path =>
    let file_path := pyAbspath (pyJoin project_path relative_path)
    if !(startsWithStr file_path project_path) then
      (.error (.mk 400 "Invalid path: Path traversal detected."), fs)
    else
      match write_file_content fs file_path content with
      | .ok fs2 =>
        (.ok ("File \x27" ++ relative_path ++ "\x27 saved successfully."), fs2)
      | .error (.other m) => (.error (.mk 500 ("Failed to write file: " ++ m)), fs)
      | .error .fileNotFound => (.error (.mk 500 "Failed to write file: "), fs)

/-- Model of `shutil.make_archive(base_name, "zip", root_dir, base_dir)`:
archive the directory `root_dir/base_dir` into `base_name + ".zip"`.  The
archive's content is summarised by the path it archives. -/
def shutil_make_archive (fs : Fs) (base_name root_dir base_dir : String) :
    Except PyErr (String × Fs) :=
  let target := pyAbspath (pyJoin root_dir base_dir)
  if fs.pyIsdir (segsOf target) then
    let zip_path := base_name ++ ".zip"
    .ok (zip_path, fs.insert (segsOf (pyAbspath zip_path)) (.file ("zip-of:" ++ target)))
  else .error (.other "FileNotFoundError")

/-- Embedding of the `POST /download` endpoint: note that the call to
`get_safe_project_path` is commented out in the source, so no path
validation happens before `shutil.make_archive` runs. -/
def download_project (fs : Fs) (outRoot project_name : String) :
    Except HErr String × Fs :=
  let zip_base_path := pyJoin outRoot project_name
  match shutil_make_archive fs zip_base_path outRoot project_name with
  | .ok (zip_file_path, fs2) => (.ok zip_file_path, fs2)
  | .error _ =>
    (.error (.mk 500 "Failed to create or send project archive: "), fs)

/-!
Tool registry: `app/tools/filesystem.py`.  Each tool returns its textual
result, the updated filesystem, and a flag recording whether an exception
handler produced the result (the operation failed).  Tool paths are keys
relative to the agent's working directory.
-/

/-- Embedding of the `create_directory` tool. -/
def create_directory (fs : Fs) (path : String) : String × Fs × Bool :=
  match makedirs fs (segsRel path) true with
  | (fs1, none) =>
    ("Directory \x27" ++ path ++ "\x27 created successfully.", fs1, false)
  | (fs1, some m) =>
    ("Error creating directory \x27" ++ path ++ "\x27: " ++ m, fs1, true)

/-- Embedding of the `write_file` tool: create the missing parent
directories (when the path has a parent at all), then write the file. -/
def write_file (fs : Fs) (path content : String) : String × Fs × Bool :=
  let segs := segsRel path
  let parent := segs.dropLast
  let step1 : Fs × Option String :=
    if !(parent = [] : Bool) then makedirs fs parent true else (fs, none)
  match step1.2 with
  | some m => ("Error writing to file \x27" ++ path ++ "\x27: " ++ m, step1.1, true)
  | none =>
    match openWrite step1.1 segs content with
    | (fs2, none) => ("File \x27" ++ path ++ "\x27 written successfully.", fs2, false)
    | (fs2, some m) =>
      ("Error writing to file \x27" ++ path ++ "\x27: " ++ m, fs2, true)

/-- Embedding of the `read_file` tool: on success the raw file content is
the returned message. -/
def read_file (fs : Fs) (path : String) : String × Bool :=
  match fs.lookup (segsRel path) with
  | some (.file c) => (c, false)
  | none => ("Error: File not found at \x27" ++ path ++ "\x27.", true)
  | some .dir => ("Error reading file \x27" ++ path ++ "\x27: IsADirectoryError", true)

/-- Embedding of the `list_directory` tool. -/
def list_directory (fs : Fs) (path : String) : String × Bool :=
  match fs.lookup (segsRel path) with
  | some .dir =>
    let names := (childEntries fs (segsRel path)).map (fun e => e.1.getLastD "")
    if names.isEmpty then ("The directory \x27" ++ path ++ "\x27 is empty.", false)
    else ("Contents of directory \x27" ++ path ++ "\x27:\n- " ++
      String.intercalate "\n- " names, false)
  | none => ("Error: Directory not found at \x27" ++ path ++ "\x27.", true)
  | some (.file _) =>
    ("Error listing directory \x27" ++ path ++ "\x27: NotADirectoryError", true)

/-- Description of the blocking `requests.get` call a tool performs: its
URL, whether a `timeout` keyword argument bounds it, and certificate
verification. -/
structure RequestsGet where
  url : String
  timeoutSeconds : Option Nat
  verify : Bool
deriving DecidableEq, Repr

/-- The `requests.get` call in `create_springboot_project`: no `timeout`
keyword argument is passed. -/
def springbootRequest : RequestsGet :=
  ⟨"https://start.spring.io/starter.zip", none, false⟩

/-- Description of the blocking `subprocess.run` call a tool performs. -/
structure SubprocessRun where
  command : List String
  timeoutSeconds : Option Nat
  check : Bool
deriving DecidableEq, Repr

/-- The `subprocess.run` call in `create_react_vite_project`:
`timeout=300` bounds it. -/
def reactSubprocess (project_name : String) : SubprocessRun :=
  ⟨["npm", "create", "vite@latest", project_name, "--", "--template", "react"],
    some 300, true⟩

/-- Outcomes of the network download and unzip in
`create_springboot_project`.  `requestRaises` covers exceptions out of
`requests.get`; `badStatus` the exception out of `raise_for_status()`
(both occur before the zip file is written); `extractRaises` an exception
out of `zipfile.ZipFile(...).extractall` after the zip was written. -/
inductive DlOutcome
| requestRaises (msg : String)
| badStatus (msg : String)
| extractRaises (msg : String)
| success
deriving DecidableEq, Repr

/-- Embedding of the `create_springboot_project` tool.  The contents of the
external archive are modelled abstractly as a project directory with a
`pom.xml` skeleton file. -/
def create_springboot_project (group_id artifact_id : String) (o : DlOutcome)
    (fs : Fs) : String × Fs × Bool :=
  let _ := group_id
  let zip : FPath := [artifact_id ++ ".zip"]
  match o with
  | .requestRaises m => ("Error creating Spring Boot project: " ++ m, fs, true)
  | .badStatus m => ("Error creating Spring Boot project: " ++ m, fs, true)
  | .extractRaises m =>
    ("Error creating Spring Boot project: " ++ m,
      fs.insert zip (.file "starter-zip-bytes"), true)
  | .success =>
    ("Spring Boot project \x27" ++ artifact_id ++
      "\x27 created successfully in the ./" ++ artifact_id ++ "/ directory.",
      ((((fs.insert zip (.file "starter-zip-bytes")).insert [artifact_id] .dir).insert
        [artifact_id, "pom.xml"] (.file "spring-skeleton")).erase zip), false)

/-- Outcomes of the `subprocess.run` call in `create_react_vite_project`.
`otherRaises` covers the generic `except Exception` handler. -/
inductive NpmOutcome
| timeoutExpired
| calledProcessError (returncode : Int) (stdout stderr : String)
| otherRaises (msg : String)
| success (stdout stderr : String)
deriving DecidableEq, Repr

/-- Embedding of the `create_react_vite_project` tool.  The scaffolded
starter layout is modelled abstractly as the project directory. -/
def create_react_vite_project (project_name : String) (o : NpmOutcome)
    (fs : Fs) : String × Fs × Bool :=
  match o with
  | .timeoutExpired =>
    ("Error: The command to create the React project timed out after 5 minutes.",
      fs, true)
  | .calledProcessError rc out err =>
    ("Error creating React project \x27" ++ project_name ++ "\x27. Return code: " ++
      toString rc ++ "\nOutput:\n" ++ out ++ "\nError:\n" ++ err, fs, true)
  | .otherRaises m => ("An unexpected error occurred: " ++ m, fs, true)
  | .success _ _ =>
    ("React + Vite project \x27" ++ project_name ++ "\x27 created successfully.",
      fs.insert [project_name] .dir, false)

/-!
Plan execution: `CodeGenerationService._execute_plan`.
-/

/-- One tool invocation the execution agent performs, with the outcome of
any external call it involves. -/
inductive AgentCall
| callCreateDirectory (path : String)
| callWriteFile (path content : String)
| callReadFile (path : String)
| callListDirectory (path : String)
| callSpringboot (group_id artifact_id : String) (o : DlOutcome)
| callReact (project_name : String) (o : NpmOutcome)
deriving DecidableEq, Repr

/-- Effect of one tool invocation on the filesystem.  No tool in
`filesystem.py` calls `os.chdir`, so none affects the working directory. -/
def runToolFs : AgentCall → Fs → Fs
| .callCreateDirectory p, fs => (create_directory fs p).2.1
| .callWriteFile p c, fs => (write_file fs p c).2.1
| .callReadFile _, fs => fs
| .callListDirectory _, fs => fs
| .callSpringboot g a o, fs => (create_springboot_project g a o fs).2.1
| .callReact n o, fs => (create_react_vite_project n o fs).2.1

/-- Run the agent's tool invocations in order, recording the process
working directory observed by each invocation. -/
def runAgentCalls : List AgentCall → String → Fs → Fs × List String
| [], _, fs => (fs, [])
| c :: cs, cwd, fs =>
  let fs1 := runToolFs c fs
  let rest := runAgentCalls cs cwd fs1
  (rest.1, cwd :: rest.2)

/-- Embedding of `_execute_plan`.  The agent executor is modelled by the
list of tool invocations it performs and an optional exception it raises
afterwards (`agentRaises`); the try/finally of the source restores the
saved working directory on both exits.  The result quadruple is
(outcome, final working directory, final filesystem, working directory
observed by each tool invocation). -/
def execute_plan (plan_steps : List String) (output_directory : String)
    (calls : List AgentCall) (agentRaises : Option String)
    (agentOutput : String) (cwd0 : String) (fs0 : Fs) :
    Except String String × String × Fs × List String :=
  let _ := plan_steps
  let pre : Fs × Option String :=
    if !(fs0.pyExists (segsOf (pyAbspathCwd cwd0 output_directory))) then
      makedirs fs0 (segsOf (pyAbspathCwd cwd0 output_directory)) false
    else (fs0, none)
  match pre.2 with
  | some m => (.error m, cwd0, pre.1, [])
  | none =>
    let original_directory := cwd0
    let cwd1 := pyAbspathCwd cwd0 output_directory
    let run := runAgentCalls calls cwd1 pre.1
    let result : Except String String :=
      match agentRaises with
      | some e => .error e
      | none => .ok agentOutput
    (result, original_directory, run.1, run.2)

/-!
Plan generation: the instruction template of
`CodeGenerationService._create_structured_plan`.  Apostrophes are written
as the escape `\x27`; the four placeholders are kept verbatim.
-/

/-- The instruction template of `_create_structured_plan` as its list of
lines, verbatim (including the 8-space indentation of the Python
triple-quoted literal; the literal starts with a newline and ends with a
line of 8 spaces). -/
def templateLines : List String := [
  "",
  "        You are a world-class Solution Architect. Your task is to analyze user stories and produce a complete design and scaffolding plan for an AI agent.",
  "",
  "        **Input Details:**",
  "        - User Stories: {user_stories}",
  "        - Project Type: {project_type}",
  "        - Language/Framework: {language}",
  "",
  "        **Output Instructions:**",
  "        You MUST provide your response as a JSON object that strictly follows this format:",
  "        {format_instructions}",
  "",
  "        **Design and Plan Details:**",
  "        1.  **high_level_design**: Describe the application\x27s architecture. What are the major components? How do they interact? Everything must be in detail.",
  "        2.  **low_level_design**: Define the specifics. If there\x27s a database, define the table schemas. For APIs, define the endpoints (e.g., POST /api/users), and the JSON request/response bodies. Everything must be in detail.",
  "        3.  **plan**: Provide a step-by-step list of commands for the AI agent. This plan will be executed to build the project.",
  "            - Start with a high-level tool call like `create_springboot_project` or `create_react_vite_project`.",
  "            - Follow with low-level tool calls like `write_file` or `create_directory` to modify the base project.",
  "            - All file paths in the plan must be relative to the project directory created in the first step (e.g., \x27backend/src/...\x27 or \x27frontend/src/...\x27).",
  "",
  "        **Example for \x27plan\x27 (springboot):**",
  "        [\"Create a new Spring Boot project using the `create_springboot_project` tool with the `artifact_id` set to \x27backend\x27.\", \"Write a new file named `backend/src/main/java/com/example/backend/model/User.java`. It should be a JPA Entity for a \x27users\x27 table.\", \"Write a new file named `backend/src/main/java/com/example/backend/repository/UserRepository.java`. It should be a JpaRepository interface for the User entity.\"]",
  "",
  "        **Example for \x27plan\x27 (react):**",
  "        [\"Create a new React project using the `create_react_vite_project` tool with the `project_name` set to \x27frontend\x27.\", \"Create a new directory named `frontend/src/components`.\", \"Write a new file named `frontend/src/components/LoginForm.jsx`.\", \"Overwrite the existing file named `frontend/src/App.jsx` to import and render the `LoginForm` component.\"]",
  "",
  "        ---",
  "        **CRUCIAL GUIDELINES FOR REACT FRONTEND PLAN:**",
  "        When designing the \x27plan\x27 for a React project, you must adhere to the following principles to ensure a professional, functional, and maintainable application:",
  "",
  "        1.  **Component-Based Architecture:**",
  "            - Break down the UI into logical, reusable components (e.g., `Header.jsx`, `LoginForm.jsx`, `UserList.jsx`).",
  "            - For each component, the plan must include a `write_file` command to create its own `.jsx` file inside a `components` directory.",
  "",
  "        2.  **Styling with Native CSS:**",
  "            - Create a main `App.css` file for global styles (fonts, body background, etc.) and ensure it\x27s imported in `App.jsx`.",
  "            - For individual components, write clean, modern CSS. Use modern layout techniques like Flexbox or Grid to create professional-looking layouts.",
  "            - The final UI should not look like unstyled HTML. It needs padding, margins, a consistent color scheme, and good typography.",
  "",
  "        3.  **State Management and Logic:**",
  "            - Implement all necessary JavaScript logic within the components to make them interactive.",
  "            - Use React hooks like `useState` to manage state (e.g., form input values) and `useEffect` for side effects.",
  "            - Event handlers (like `onClick`, `onChange`, `onSubmit`) must be correctly implemented.",
  "",
  "        4.  **Connectivity and Imports (MOST IMPORTANT):**",
  "            - This is critical: **You MUST ensure all component and CSS imports are correct.**",
  "            - When a parent component (e.g., `App.jsx`) uses a child component (e.g., `LoginForm.jsx`), the `write_file` or `overwrite_file` command for the parent component\x27s content **MUST** include the correct import statement at the top (e.g., `import LoginForm from \x27./components/LoginForm\x27;`).",
  "            - A failure to include correct imports will result in a broken application. Double-check all relative paths.",
  "            - Make sure to import the necessary css files from the syles folder (ensure path is correct)",
  "",
  "        5.  **Completeness:**",
  "            - The plan must be comprehensive enough to generate a fully working application that fulfills the user stories from the start.",
  "            - The final generated code should run without console errors related to syntax or missing imports.",
  "        ---",
  "",
  "        Provide the final JSON response now.",
  "        "]

/-- The instruction template string of `_create_structured_plan`. -/
def template : String :=
  String.intercalate "\n" templateLines

/-- Occurrence test of a character list inside another: `needle` is a
prefix of some suffix. -/
def isInfixIn (needle : List Char) : List Char → Bool
| [] => needle.isEmpty
| c :: rest => needle.isPrefixOf (c :: rest) || isInfixIn needle rest

/-- Substring test on strings via the character lists. -/
def containsSub (hay needle : String) : Bool :=
  isInfixIn needle.toList hay.toList

/-- Replacement of every occurrence of a nonempty pattern in a character
list, with a fuel argument for structural termination; callers pass the
length of the subject, which suffices because each step consumes at least
one character. -/
def replaceFuel : Nat → List Char → List Char → List Char → List Char
| 0, s, _, _ => s
| _ + 1, [], _, _ => []
| fuel + 1, c :: rest, pat, rep =>
  if pat.isPrefixOf (c :: rest) && !pat.isEmpty then
    rep ++ replaceFuel fuel ((c :: rest).drop pat.length) pat rep
  else c :: replaceFuel fuel rest pat rep

/-- String replacement built on `replaceFuel`. -/
def strReplace (s pat rep : String) : String :=
  String.mk (replaceFuel s.toList.length s.toList pat.toList rep.toList)

/-- Substring test against a text given as its list of lines.  None of the
needles used below contains a newline, so an occurrence in the joined text
is an occurrence in some line. -/
def containsSubLines (lines : List String) (needle : String) : Bool :=
  lines.any (fun l => containsSub l needle)

/-- The lines of the prompt text `_create_structured_plan` sends for given
inputs: the template with its four placeholders substituted (none of the
placeholders spans a line break). -/
def renderedPromptLines
    (user_stories project_type language format_instructions : String) :
    List String :=
  templateLines.map (fun l =>
    strReplace (strReplace (strReplace (strReplace l
      "{format_instructions}" format_instructions)
      "{user_stories}" user_stories) "{project_type}" project_type)
      "{language}" language)

/-- Whether an instruction text (given as lines) states that the agent
starts from an empty or pre-existing working directory, tested by the
presence of the words such a statement would use. -/
def statesEmptyStart (lines : List String) : Bool :=
  containsSubLines lines "empty" || containsSubLines lines "pre-existing" ||
  containsSubLines lines "existing directory"

/-- Whether an instruction text (given as lines) forbids build/package/VCS
commands in the plan body, tested by the presence of prohibition phrasing
or of the commands being prohibited. -/
def forbidsBuildCommands (lines : List String) : Bool :=
  containsSubLines lines "forbid" || containsSubLines lines "Do not" ||
  containsSubLines lines "do not" || containsSubLines lines "must not" ||
  containsSubLines lines "Never" || containsSubLines lines "never" ||
  containsSubLines lines "git" || containsSubLines lines "npm install" ||
  containsSubLines lines "mvn" || containsSubLines lines "only directory" ||
  containsSubLines lines "no build"

/-- Whether an instruction text (given as lines) requires the first plan
step to invoke a high-level bootstrap tool. -/
def requiresBootstrapFirst (lines : List String) : Bool :=
  containsSubLines lines "Start with a high-level tool call like `create_springboot_project` or `create_react_vite_project`."

/-!
Helper lemmas.
-/

theorem List.isPrefixOf_append_of_le {l₁ l₂ p : List Char}
    (h : p.length ≤ l₁.length) :
    p.isPrefixOf (l₁ ++ l₂) = p.isPrefixOf l₁ := by
  induction p generalizing l₁ with
  | nil => simp [List.isPrefixOf]
  | cons c cs ih =>
    cases l₁ with
    | nil => simp at h
    | cons d ds =>
      simp only [List.cons_append, List.isPrefixOf, List.append_eq]
      rw [ih (by simpa using h)]

theorem startsWithStr_append (a b p : String) (h : p.length ≤ a.length) :
    startsWithStr (a ++ b) p = startsWithStr a p := by
  unfold startsWithStr
  have hd : (a ++ b).toList = a.toList ++ b.toList := by
    cases a; cases b; rfl
  rw [hd]
  exact List.isPrefixOf_append_of_le h

theorem get_safe_project_path_error_isClientError
    (fs : Fs) (b n : String) (e : HErr)
    (h : get_safe_project_path fs b n = .error e) :
    e.isClientError = true := by
  simp only [get_safe_project_path] at h
  split at h
  · cases h; decide
  · split at h
    · cases h; rfl
    · cases h

theorem get_safe_project_path_ok (fs : Fs) (b n pp : String)
    (h : get_safe_project_path fs b n = .ok pp) :
    pp = pyAbspath (pyJoin b n) ∧
    startsWithStr (pyAbspath (pyJoin b n)) (pyAbspath b) = true ∧
    fs.pyIsdir (segsOf (pyAbspath (pyJoin b n))) = true := by
  simp only [get_safe_project_path] at h
  split at h
  · cases h
  · next hpre =>
    split at h
    · cases h
    · next hdir =>
      cases h
      refine ⟨rfl, ?_, ?_⟩
      · simpa using hpre
      · simpa using hdir

/-!
Claim C1.  The source guard is `file_path.startswith(project_path)`, a raw
string prefix check: a `..` traversal that resolves to a sibling directory
whose absolute path has the project path as a string prefix (for example
project `proj` and sibling `proj2`) is accepted, so the claim as stated is
false.  The guard that does hold is stated against the string prefix test.
-/

/-- Output root with two projects, `proj` and `proj2`, the latter holding a
file. -/
def fsC1 : Fs :=
  ⟨[(["out"], .dir), (["out", "proj"], .dir), (["out", "proj2"], .dir),
    (["out", "proj2", "secret.txt"], .file "top-secret")]⟩

/-- Claim C1 (counterexample): a `relative_path` with a `..` segment whose
resolution lies outside the project directory `/out/proj` (it lands in the
sibling `/out/proj2`) is not rejected: the read endpoint serves the file,
and the write endpoint mutates the filesystem, because the resolved string
`/out/proj2/secret.txt` passes the `startswith("/out/proj")` check. -/
theorem c1_counterexample :
    hasDotDot "../proj2/secret.txt" = true ∧
    insideDir (pyAbspath (pyJoin "/out/proj" "../proj2/secret.txt")) "/out/proj" = false ∧
    get_file_content fsC1 "/out" "proj" "../proj2/secret.txt" = .ok "top-secret" ∧
    (write_file_content_endpoint fsC1 "/out" "proj" "../proj2/secret.txt" "overwritten").2 ≠ fsC1 := by
  refine ⟨by decide, by decide, by rfl, by decide⟩

/-- Claim C1 (amended): both content endpoints reject with a client error,
and the write endpoint performs no filesystem mutation, whenever the
resolved file path fails the string prefix check against the project path
(rather than whenever it resolves outside the project directory). -/
theorem c1_reject_on_prefix_failure (fs : Fs) (outRoot project rel content : String)
    (h : startsWithStr (pyAbspath (pyJoin (pyAbspath (pyJoin outRoot project)) rel))
      (pyAbspath (pyJoin outRoot project)) = false) :
    (∃ e, get_file_content fs outRoot project rel = .error e ∧ e.isClientError = true) ∧
    (∃ e, (write_file_content_endpoint fs outRoot project rel content).1 = .error e ∧
      e.isClientError = true) ∧
    (write_file_content_endpoint fs outRoot project rel content).2 = fs := by
  unfold get_file_content write_file_content_endpoint
  cases hs : get_safe_project_path fs outRoot project with
  | error e =>
    have := get_safe_project_path_error_isClientError fs outRoot project e hs
    exact ⟨⟨e, rfl, this⟩, ⟨e, rfl, this⟩, rfl⟩
  | ok pp =>
    obtain ⟨hpp, -, -⟩ := get_safe_project_path_ok fs outRoot project pp hs
    subst hpp
    refine ⟨⟨.mk 400 "Invalid path: Path traversal detected.", ?_, by decide⟩,
      ⟨.mk 400 "Invalid path: Path traversal detected.", ?_, by decide⟩, ?_⟩ <;>
      simp [h]

/-- Witness for `c1_reject_on_prefix_failure` at a concrete input: project
`proj` exists and `../other/x` resolves to `/out/other/x`, which fails the
string prefix check. -/
theorem c1_reject_on_prefix_failure_witness :
    startsWithStr (pyAbspath (pyJoin (pyAbspath (pyJoin "/out" "proj")) "../other/x"))
      (pyAbspath (pyJoin "/out" "proj")) = false ∧
    (∃ e, get_file_content fsC1 "/out" "proj" "../other/x" = .error e ∧
      e.isClientError = true) := by
  refine ⟨by decide, (c1_reject_on_prefix_failure fsC1 "/out" "proj" "../other/x" "c" (by decide)).1⟩

/-!
Claim C2.  The tree and content endpoints validate through
`get_safe_project_path`, but in `download_project` the validation call is
commented out: a traversal `project_name` reaches `shutil.make_archive`
directly, so the claim as stated ("every endpoint ... rejects ... before
touching the filesystem") is false.
-/

/-- An output root `/out` next to a directory `/etc` that lies outside it. -/
def fsC2 : Fs :=
  ⟨[(["out"], .dir), (["etc"], .dir), (["etc", "passwd"], .file "root:x:0:0")]⟩

/-- Claim C2 (counterexample): `POST /download` with the traversal project
name `../../etc` resolves outside the output root, yet is not rejected
with a client error: the endpoint archives the escaped directory and
returns the zip path, mutating the filesystem. -/
theorem c2_counterexample :
    insideDir (pyAbspath (pyJoin "/out" "../../etc")) "/out" = false ∧
    (download_project fsC2 "/out" "../../etc").1 = .ok "/out/../../etc.zip" ∧
    (download_project fsC2 "/out" "../../etc").2 ≠ fsC2 := by
  refine ⟨by decide, by rfl, by decide⟩

/-- Claim C2 (amended): the three endpoints that do call
`get_safe_project_path` — `GET /files/tree`, `GET /files/content` and
`POST /files/content` — reject with the 400 client error, without mutating
the filesystem, whenever the resolved project path fails the string prefix
check against the output root; `POST /download` performs no validation at
all. -/
theorem c2_reject_on_root_prefix_failure (fs : Fs) (outRoot project rel content : String)
    (h : startsWithStr (pyAbspath (pyJoin outRoot project)) (pyAbspath outRoot) = false) :
    get_file_tree fs outRoot project =
      .error (.mk 400 "Invalid path: Path traversal detected.") ∧
    get_file_content fs outRoot project rel =
      .error (.mk 400 "Invalid path: Path traversal detected.") ∧
    (write_file_content_endpoint fs outRoot project rel content).1 =
      .error (.mk 400 "Invalid path: Path traversal detected.") ∧
    (write_file_content_endpoint fs outRoot project rel content).2 = fs := by
  have hsafe : get_safe_project_path fs outRoot project =
      .error (.mk 400 "Invalid path: Path traversal detected.") := by
    simp [get_safe_project_path, h]
  refine ⟨?_, ?_, ?_, ?_⟩ <;> simp [get_file_tree, get_file_content,
    write_file_content_endpoint, hsafe]

/-- Witness for `c2_reject_on_root_prefix_failure` at a concrete input:
the project name `../../etc` fails the prefix check against `/out`. -/
theorem c2_reject_on_root_prefix_failure_witness :
    startsWithStr (pyAbspath (pyJoin "/out" "../../etc")) (pyAbspath "/out") = false ∧
    get_file_tree fsC2 "/out" "../../etc" =
      .error (.mk 400 "Invalid path: Path traversal detected.") := by
  refine ⟨by decide,
    (c2_reject_on_root_prefix_failure fsC2 "/out" "../../etc" "x" "c" (by decide)).1⟩

/-!
Claim C5.  The template does require starting with a high-level bootstrap
tool call, but it contains no statement that the agent starts from an
empty or pre-existing working directory and no prohibition of
build/package/VCS commands, so the claim as stated is false.
-/

set_option maxRecDepth 8000 in
/-- Claim C5 (counterexample): for the concrete input (user stories
`stories`, project type `backend`, language `java`, any format
instructions), the rendered instruction text does not satisfy the
conjunction the claim asserts: it nowhere states an empty or pre-existing
starting directory. -/
theorem c5_counterexample :
    (statesEmptyStart (renderedPromptLines "stories" "backend" "java" "fmt") &&
     forbidsBuildCommands (renderedPromptLines "stories" "backend" "java" "fmt") &&
     requiresBootstrapFirst (renderedPromptLines "stories" "backend" "java" "fmt")) =
      false := by
  decide

set_option maxRecDepth 8000 in
/-- Claim C5 (amended): the instruction template requires the first plan
step to invoke a high-level bootstrap tool, but it neither states that the
agent starts from an empty or pre-existing working directory nor forbids
build/package/VCS commands in the plan body. -/
theorem c5_template_contents :
    requiresBootstrapFirst templateLines = true ∧
    statesEmptyStart templateLines = false ∧
    forbidsBuildCommands templateLines = false := by
  refine ⟨by decide, by decide, by decide⟩

/-!
Claim C6.  The react tool passes `timeout=300` to `subprocess.run` and
routes every failure into a returned message, but the `requests.get` call
of the springboot tool passes no `timeout` keyword at all, so the claim
that both blocking calls are bounded is false.
-/

/-- Claim C6 (counterexample): the blocking `requests.get` call of
`create_springboot_project` has no bounded timeout. -/
theorem c6_counterexample :
    springbootRequest.timeoutSeconds.isSome = false := by
  decide

/-- Claim C6 (amended): the react tool's `subprocess.run` is bounded by a
300-second timeout and the springboot tool's `requests.get` is unbounded;
every failure of either tool is returned as a textual message (the
springboot failure paths and the react timeout/process failures start with
`Error`, and the react generic handler starts with `An unexpected error
occurred`) instead of propagating an exception. -/
theorem c6_timeouts_and_failures :
    (∀ name, (reactSubprocess name).timeoutSeconds = some 300) ∧
    springbootRequest.timeoutSeconds = none ∧
    (∀ g a m fs, startsWithStr (create_springboot_project g a (.requestRaises m) fs).1
      "Error" = true) ∧
    (∀ g a m fs, startsWithStr (create_springboot_project g a (.badStatus m) fs).1
      "Error" = true) ∧
    (∀ g a m fs, startsWithStr (create_springboot_project g a (.extractRaises m) fs).1
      "Error" = true) ∧
    (∀ n fs, startsWithStr (create_react_vite_project n .timeoutExpired fs).1
      "Error" = true) ∧
    (∀ n rc o e fs, startsWithStr
      (create_react_vite_project n (.calledProcessError rc o e) fs).1 "Error" = true) ∧
    (∀ n m fs, startsWithStr (create_react_vite_project n (.otherRaises m) fs).1
      "An unexpected error occurred" = true) := by
  refine ⟨fun _ => rfl, rfl, ?_, ?_, ?_, ?_, ?_, ?_⟩
  · intro g a m fs
    show startsWithStr ("Error creating Spring Boot project: " ++ m) "Error" = true
    rw [startsWithStr_append _ _ _ (by decide)]
    decide
  · intro g a m fs
    show startsWithStr ("Error creating Spring Boot project: " ++ m) "Error" = true
    rw [startsWithStr_append _ _ _ (by decide)]
    decide
  · intro g a m fs
    show startsWithStr ("Error creating Spring Boot project: " ++ m) "Error" = true
    rw [startsWithStr_append _ _ _ (by decide)]
    decide
  · intro n fs
    rfl
  · intro n rc o e fs
    show startsWithStr ("Error creating React project \x27" ++ n ++
      ("\x27. Return code: " ++ toString rc ++ "\nOutput:\n" ++ o ++ "\nError:\n" ++ e))
      "Error" = true
    rw [String.append_assoc, startsWithStr_append _ _ _ (by decide)]
    decide
  · intro n m fs
    show startsWithStr ("An unexpected error occurred: " ++ m)
      "An unexpected error occurred" = true
    rw [startsWithStr_append _ _ _ (by decide)]
    decide

/-!
Claim C7.  On success the zip is removed after unpacking and on failures
before the download nothing is written, but when the unzip step raises the
`except` handler returns an error message without deleting the already
written zip, so "removes the transient archive on every outcome" is false.
-/

/-- Claim C7 (counterexample): with an archive failure after the download
(`BadZipFile`), `create_springboot_project` leaves the transient
`backend.zip` on disk while returning its textual error. -/
theorem c7_counterexample :
    ((create_springboot_project "com.example" "backend"
      (.extractRaises "File is not a zip file") ⟨[]⟩).2.1).lookup ["backend.zip"] =
      some (.file "starter-zip-bytes") ∧
    startsWithStr (create_springboot_project "com.example" "backend"
      (.extractRaises "File is not a zip file") ⟨[]⟩).1 "Error" = true := by
  refine ⟨by rfl, by rfl⟩

/-- Claim C7 (amended): `create_springboot_project` removes the transient
zip on success and writes nothing before a download failure, and every
failure returns a textual `Error` message; but on an unpack failure the
already downloaded zip remains on disk. -/
theorem c7_zip_lifecycle (g a m : String) (fs : Fs) :
    ((create_springboot_project g a .success fs).2.1).lookup [a ++ ".zip"] = none ∧
    (create_springboot_project g a (.requestRaises m) fs).2.1 = fs ∧
    (create_springboot_project g a (.badStatus m) fs).2.1 = fs ∧
    ((create_springboot_project g a (.extractRaises m) fs).2.1).lookup [a ++ ".zip"] =
      some (.file "starter-zip-bytes") ∧
    startsWithStr (create_springboot_project g a (.extractRaises m) fs).1
      "Error" = true := by
  refine ⟨?_, rfl, rfl, ?_, ?_⟩
  · exact Fs.lookup_erase_self _ _
  · exact Fs.lookup_insert_self _ _ _
  · show startsWithStr ("Error creating Spring Boot project: " ++ m) "Error" = true
    rw [startsWithStr_append _ _ _ (by decide)]
    decide

/-!
Claim C8.  The boolean flag each embedded tool returns records whether its
`except` handler produced the message.  The convention "message starts
with `Error` iff the operation failed" breaks twice: `read_file` returns
raw file content on success (which may itself start with `Error`), and the
generic handler of `create_react_vite_project` reports failures with a
message starting `An unexpected error occurred`.
-/

/-- A filesystem holding a log file whose content happens to start with
the word `Error`. -/
def fsC8 : Fs :=
  ⟨[(["log.txt"], .file "Error: pretend failure recorded earlier")]⟩

/-- Claim C8 (counterexample): a successful `read_file` of an existing
file returns a message starting with `Error` because the file content
does, breaking the "starts with Error iff failed" convention. -/
theorem c8_counterexample :
    (read_file fsC8 "log.txt").2 = false ∧
    startsWithStr (read_file fsC8 "log.txt").1 "Error" = true := by
  refine ⟨by rfl, by rfl⟩

/-- Claim C8 (amended): the iff holds for `create_directory`, `write_file`,
`list_directory` and `create_springboot_project`; for `read_file` only the
failure direction holds (failures always start with `Error`, but a success
echoes the file content); `create_react_vite_project` failures from the
timeout and process-error handlers start with `Error`, while its generic
handler produces messages starting `An unexpected error occurred`. -/
theorem c8_error_prefix_convention :
    (∀ fs path, startsWithStr (create_directory fs path).1 "Error" =
      (create_directory fs path).2.2) ∧
    (∀ fs path content, startsWithStr (write_file fs path content).1 "Error" =
      (write_file fs path content).2.2) ∧
    (∀ fs path, startsWithStr (list_directory fs path).1 "Error" =
      (list_directory fs path).2) ∧
    (∀ g a o fs, startsWithStr (create_springboot_project g a o fs).1 "Error" =
      (create_springboot_project g a o fs).2.2) ∧
    (∀ fs path, ((read_file fs path).2 &&
      !(startsWithStr (read_file fs path).1 "Error")) = false) ∧
    (∀ n o e rc fs, startsWithStr
      (create_react_vite_project n (.calledProcessError rc o e) fs).1 "Error" = true ∧
      startsWithStr (create_react_vite_project n .timeoutExpired fs).1 "Error" = true) ∧
    (∀ n m fs, startsWithStr (create_react_vite_project n (.otherRaises m) fs).1
      "An unexpected error occurred" = true ∧
      startsWithStr (create_react_vite_project n (.otherRaises m) fs).1 "Error" = false ∧
      (create_react_vite_project n (.otherRaises m) fs).2.2 = true) := by
  refine ⟨?_, ?_, ?_, ?_, ?_, ?_, ?_⟩
  · intro fs path
    unfold create_directory
    cases hmk : makedirs fs (segsRel path) true with
    | mk fs1 err =>
      cases err with
      | none =>
        show startsWithStr ("Directory \x27" ++ (path ++ "\x27 created successfully.")) "Error" = false
        rw [startsWithStr_append _ _ _ (by decide)]
        decide
      | some m =>
        show startsWithStr ("Error creating directory \x27" ++ (path ++ ("\x27: " ++ m))) "Error" = true
        rw [startsWithStr_append _ _ _ (by decide)]
        decide
  · intro fs path content
    unfold write_file
    by_cases hpar : ((segsRel path).dropLast = ([] : FPath))
    · simp only [hpar, decide_True, Bool.not_true, Bool.false_eq_true, if_false]
      cases how : openWrite fs (segsRel path) content with
      | mk fs2 err =>
        cases err with
        | none =>
          show startsWithStr ("File \x27" ++ (path ++ "\x27 written successfully.")) "Error" = false
          rw [startsWithStr_append _ _ _ (by decide)]
          decide
        | some m =>
          show startsWithStr ("Error writing to file \x27" ++ (path ++ ("\x27: " ++ m))) "Error" = true
          rw [startsWithStr_append _ _ _ (by decide)]
          decide
    · simp only [hpar, decide_False, Bool.not_false, if_true]
      cases hmk : makedirs fs ((segsRel path).dropLast) true with
      | mk fs1 err =>
        cases err with
        | none =>
          cases how : openWrite fs1 (segsRel path) content with
          | mk fs2 err2 =>
            cases err2 with
            | none =>
              show startsWithStr ("File \x27" ++ (path ++ "\x27 written successfully.")) "Error" = false
              rw [startsWithStr_append _ _ _ (by decide)]
              decide
            | some m =>
              show startsWithStr ("Error writing to file \x27" ++ (path ++ ("\x27: " ++ m))) "Error" = true
              rw [startsWithStr_append _ _ _ (by decide)]
              decide
        | some m =>
          show startsWithStr ("Error writing to file \x27" ++ (path ++ ("\x27: " ++ m))) "Error" = true
          rw [startsWithStr_append _ _ _ (by decide)]
          decide
  · intro fs path
    unfold list_directory
    cases hl : fs.lookup (segsRel path) with
    | none =>
      show startsWithStr ("Error: Directory not found at \x27" ++ (path ++ "\x27.")) "Error" = true
      rw [startsWithStr_append _ _ _ (by decide)]
      decide
    | some e =>
      cases e with
      | dir =>
        by_cases hne : ((childEntries fs (segsRel path)).map (fun e => e.1.getLastD "")).isEmpty = true
        · simp only [hne, if_true]
          show startsWithStr ("The directory \x27" ++ (path ++ "\x27 is empty.")) "Error" = false
          rw [startsWithStr_append _ _ _ (by decide)]
          decide
        · simp only [hne, if_false]
          show startsWithStr ("Contents of directory \x27" ++ (path ++ ("\x27:\n- " ++
            String.intercalate "\n- " ((childEntries fs (segsRel path)).map (fun e => e.1.getLastD ""))))) "Error" = false
          rw [startsWithStr_append _ _ _ (by decide)]
          decide
      | file c =>
        show startsWithStr ("Error listing directory \x27" ++ (path ++ "\x27: NotADirectoryError")) "Error" = true
        rw [startsWithStr_append _ _ _ (by decide)]
        decide
  · intro g a o fs
    cases o with
    | requestRaises m =>
      show startsWithStr ("Error creating Spring Boot project: " ++ m) "Error" = true
      rw [startsWithStr_append _ _ _ (by decide)]
      decide
    | badStatus m =>
      show startsWithStr ("Error creating Spring Boot project: " ++ m) "Error" = true
      rw [startsWithStr_append _ _ _ (by decide)]
      decide
    | extractRaises m =>
      show startsWithStr ("Error creating Spring Boot project: " ++ m) "Error" = true
      rw [startsWithStr_append _ _ _ (by decide)]
      decide
    | success =>
      show startsWithStr ("Spring Boot project \x27" ++ (a ++
        ("\x27 created successfully in the ./" ++ (a ++ "/ directory.")))) "Error" = false
      rw [startsWithStr_append _ _ _ (by decide)]
      decide
  · intro fs path
    unfold read_file
    cases hl : fs.lookup (segsRel path) with
    | none =>
      show (true && !(startsWithStr ("Error: File not found at \x27" ++ (path ++ "\x27.")) "Error")) = false
      rw [startsWithStr_append _ _ _ (by decide)]
      decide
    | some e =>
      cases e with
      | dir =>
        show (true && !(startsWithStr ("Error reading file \x27" ++ (path ++ "\x27: IsADirectoryError")) "Error")) = false
        rw [startsWithStr_append _ _ _ (by decide)]
        decide
      | file c => simp
  · intro n o e rc fs
    constructor
    · show startsWithStr ("Error creating React project \x27" ++ n ++
        ("\x27. Return code: " ++ toString rc ++ "\nOutput:\n" ++ o ++ "\nError:\n" ++ e))
        "Error" = true
      rw [String.append_assoc, startsWithStr_append _ _ _ (by decide)]
      decide
    · rfl
  · intro n m fs
    refine ⟨?_, ?_, rfl⟩
    · show startsWithStr ("An unexpected error occurred: " ++ m)
        "An unexpected error occurred" = true
      rw [startsWithStr_append _ _ _ (by decide)]
      decide
    · show startsWithStr ("An unexpected error occurred: " ++ m) "Error" = false
      rw [startsWithStr_append _ _ _ (by decide)]
      decide


/-!
Claim C3.  `_execute_plan` saves the working directory, changes into the
output directory, and restores the saved directory in a `finally` block;
no registry tool calls `os.chdir`, so every tool call observes the output
directory.
-/

theorem runAgentCalls_obs (cs : List AgentCall) (cwd : String) (fs : Fs) :
    ∀ c ∈ (runAgentCalls cs cwd fs).2, c = cwd := by
  induction cs generalizing fs with
  | nil => intro c hc; cases hc
  | cons t ts ih =>
    intro c hc
    simp only [runAgentCalls, List.mem_cons] at hc
    cases hc with
    | inl h => exact h
    | inr h => exact ih _ c h

/-- Claim C3: during a plan run every tool invocation observes the
configured output directory as the process working directory, and on both
exit paths of the run — normal agent completion and an agent exception —
the working directory returned is exactly the pre-run value. -/
theorem c3_cwd_discipline (plan_steps : List String) (output_directory : String)
    (calls : List AgentCall) (agentRaises : Option String) (agentOutput : String)
    (cwd0 : String) (fs0 : Fs)
    (h1 : isAbs output_directory = true)
    (h2 : pyAbspath output_directory = output_directory) :
    (∀ c ∈ (execute_plan plan_steps output_directory calls agentRaises agentOutput
      cwd0 fs0).2.2.2, c = output_directory) ∧
    (execute_plan plan_steps output_directory calls agentRaises agentOutput
      cwd0 fs0).2.1 = cwd0 := by
  have hcwd : pyAbspathCwd cwd0 output_directory = output_directory := by
    unfold pyAbspathCwd
    rw [h1]
    simpa using h2
  simp only [execute_plan, hcwd]
  cases hpre : (if !(fs0.pyExists (segsOf output_directory)) then
      makedirs fs0 (segsOf output_directory) false else (fs0, none)).2 with
  | some m =>
    simp only [hpre]
    exact ⟨fun c hc => (nomatch hc), trivial⟩
  | none =>
    simp only [hpre]
    refine ⟨?_, trivial⟩
    intro c hc
    exact runAgentCalls_obs calls output_directory _ c hc

/-- Witness for `c3_cwd_discipline` at a concrete input. -/
theorem c3_cwd_discipline_witness :
    isAbs "/out" = true ∧ pyAbspath "/out" = "/out" ∧
    (execute_plan ["step 1"] "/out" [.callCreateDirectory "backend"] none "done"
      "/srv/app" ⟨[]⟩).2.1 = "/srv/app" := by
  refine ⟨by decide, by decide, ?_⟩
  exact (c3_cwd_discipline ["step 1"] "/out" [.callCreateDirectory "backend"] none "done"
    "/srv/app" ⟨[]⟩ (by decide) (by decide)).2

/-!
Claim C9.  `write_file` creates the missing parent directories with
`os.makedirs(parent, exist_ok=True)` and then writes the file; invoked
twice with the same arguments it leaves the same filesystem.
-/

theorem makedirsList_missing (fs : Fs) (ps : List FPath)
    (hmiss : ∀ q ∈ ps, fs.lookup q = none) (hnd : ps.Nodup) :
    (makedirsList fs ps).2 = none ∧
    ∀ q, (makedirsList fs ps).1.lookup q =
      if q ∈ ps then some FEntry.dir else fs.lookup q := by
  induction ps generalizing fs with
  | nil =>
    refine ⟨rfl, ?_⟩
    intro q
    simp [makedirsList]
  | cons p rest ih =>
    have hp : fs.lookup p = none := hmiss p (List.mem_cons_self p rest)
    have hstep : makedirsList fs (p :: rest) = makedirsList (fs.insert p .dir) rest := by
      simp [makedirsList, hp]
    have hpr : p ∉ rest := (List.nodup_cons.mp hnd).1
    have hmiss2 : ∀ q ∈ rest, (fs.insert p .dir).lookup q = none := by
      intro q hq
      rw [Fs.lookup_insert]
      have hqp : ¬ q = p := fun hh => hpr (hh ▸ hq)
      simp only [hqp, if_false]
      exact hmiss q (List.mem_cons_of_mem p hq)
    obtain ⟨h1, h2⟩ := ih (fs.insert p .dir) hmiss2 (List.nodup_cons.mp hnd).2
    rw [hstep]
    refine ⟨h1, ?_⟩
    intro q
    rw [h2 q, Fs.lookup_insert]
    by_cases hq1 : q ∈ rest
    · simp [hq1, List.mem_cons_of_mem p hq1]
    · by_cases hq2 : q = p
      · subst hq2
        simp [hq1, List.mem_cons_self]
      · simp [hq1, hq2, List.mem_cons]

theorem makedirsList_alldirs (fs : Fs) (ps : List FPath)
    (h : ∀ q ∈ ps, fs.lookup q = some FEntry.dir) :
    makedirsList fs ps = (fs, none) := by
  induction ps with
  | nil => rfl
  | cons p rest ih =>
    have hp := h p (List.mem_cons_self p rest)
    simp only [makedirsList, hp]
    exact ih (fun q hq => h q (List.mem_cons_of_mem p hq))

theorem prefixesNE_length_le (p : FPath) (q : FPath) (hq : q ∈ prefixesNE p) :
    q.length ≤ p.length := by
  simp only [prefixesNE, List.mem_map, List.mem_range] at hq
  obtain ⟨i, -, rfl⟩ := hq
  simpa using List.length_take_le (i + 1) p

theorem prefixesNE_nodup (p : FPath) : (prefixesNE p).Nodup := by
  refine List.Nodup.map_on ?_ (List.nodup_range p.length)
  intro i hi j hj hij
  have hi2 : (p.take (i + 1)).length = i + 1 := by
    simp only [List.length_take]
    exact Nat.min_eq_left (List.mem_range.mp hi)
  have hj2 : (p.take (j + 1)).length = j + 1 := by
    simp only [List.length_take]
    exact Nat.min_eq_left (List.mem_range.mp hj)
  have := hij ▸ hi2
  rw [hj2] at this
  omega

theorem self_mem_prefixesNE (p : FPath) (hp : p ≠ []) : p ∈ prefixesNE p := by
  have hlen : 0 < p.length := List.length_pos.mpr hp
  simp only [prefixesNE, List.mem_map, List.mem_range]
  refine ⟨p.length - 1, by omega, ?_⟩
  have : p.length - 1 + 1 = p.length := by omega
  rw [this, List.take_length]

theorem openWrite_ok (fs : Fs) (p : FPath) (c : String) (fs2 : Fs)
    (h : openWrite fs p c = (fs2, none)) :
    (fs.pyIsdir p.dropLast && !(fs.lookup p = some FEntry.dir : Bool) &&
      !(p = [] : Bool)) = true ∧ fs2 = fs.insert p (.file c) := by
  unfold openWrite at h
  split at h
  · next hc => exact ⟨hc, (Prod.mk.injEq .. ▸ h).1.symm⟩
  · cases h

/-- Claim C9: invoked on a path none of whose parent-directory prefixes
exists, `write_file` succeeds, and the resulting filesystem holds exactly
the written file, the previously missing intermediate directories, and
everything it held before; invoking it twice with the same path and
content yields a filesystem with identical contents (idempotence). -/
theorem c9_write_file_parents_and_idempotence (fs : Fs) (path content : String)
    (h0 : segsRel path ≠ [])
    (hmiss : ∀ q ∈ prefixesNE (segsRel path).dropLast, fs.lookup q = none)
    (hnotdir : fs.lookup (segsRel path) ≠ some FEntry.dir) :
    (write_file fs path content).2.2 = false ∧
    (∀ q, (write_file fs path content).2.1.lookup q =
      if q = segsRel path then some (.file content)
      else if q ∈ prefixesNE (segsRel path).dropLast then some FEntry.dir
      else fs.lookup q) ∧
    (∀ q, (write_file (write_file fs path content).2.1 path content).2.1.lookup q =
      (write_file fs path content).2.1.lookup q) := by
  have hlen : ∀ q ∈ prefixesNE (segsRel path).dropLast, q ≠ segsRel path := by
    intro q hq he
    have h1 := prefixesNE_length_le _ q hq
    have h2 : (segsRel path).dropLast.length = (segsRel path).length - 1 :=
      List.length_dropLast _
    have h3 : 0 < (segsRel path).length := List.length_pos.mpr h0
    rw [he] at h1
    omega
  -- step 1: the parent creation succeeds and only adds the missing prefixes
  obtain ⟨fsM, hstep, hchar⟩ : ∃ fsM,
      (if !((segsRel path).dropLast = [] : Bool) then
        makedirs fs (segsRel path).dropLast true else (fs, none)) = (fsM, none) ∧
      ∀ q, fsM.lookup q =
        if q ∈ prefixesNE (segsRel path).dropLast then some FEntry.dir
        else fs.lookup q := by
    by_cases hpar : (segsRel path).dropLast = []
    · refine ⟨fs, by simp [hpar], ?_⟩
      intro q
      simp [hpar, prefixesNE]
    · obtain ⟨hnone, hchar⟩ := makedirsList_missing fs
        (prefixesNE (segsRel path).dropLast) hmiss
        (prefixesNE_nodup (segsRel path).dropLast)
      refine ⟨(makedirsList fs (prefixesNE (segsRel path).dropLast)).1, ?_, hchar⟩
      simp only [hpar, decide_False, Bool.not_false, if_true, makedirs,
        Bool.false_and, Bool.false_eq_true, if_false]
      exact (Prod.ext rfl hnone)
  -- step 2: the write itself succeeds
  have hMparent : fsM.pyIsdir (segsRel path).dropLast = true := by
    by_cases hpar : (segsRel path).dropLast = []
    · simp [Fs.pyIsdir, hpar]
    · have hm : (segsRel path).dropLast ∈ prefixesNE (segsRel path).dropLast :=
        self_mem_prefixesNE _ hpar
      simp [Fs.pyIsdir, Fs.isdir, hchar _, hm]
  have hMsegs : fsM.lookup (segsRel path) = fs.lookup (segsRel path) := by
    rw [hchar]
    have : segsRel path ∉ prefixesNE (segsRel path).dropLast := by
      intro hmem
      exact hlen _ hmem rfl
    simp [this]
  have how : openWrite fsM (segsRel path) content =
      (fsM.insert (segsRel path) (.file content), none) := by
    unfold openWrite
    have hcond : (fsM.pyIsdir (segsRel path).dropLast &&
        !(fsM.lookup (segsRel path) = some FEntry.dir : Bool) &&
        !((segsRel path) = [] : Bool)) = true := by
      rw [hMparent, hMsegs]
      simp [hnotdir, h0]
    rw [hcond]
    simp
  have hw : write_file fs path content =
      ("File \x27" ++ path ++ "\x27 written successfully.",
        fsM.insert (segsRel path) (.file content), false) := by
    unfold write_file
    simp only [hstep, how]
  rw [hw]
  refine ⟨rfl, ?_, ?_⟩
  · intro q
    rw [Fs.lookup_insert]
    by_cases hq : q = segsRel path
    · simp [hq]
    · simp only [hq, if_false]
      exact hchar q
  -- idempotence: the second run hits only existing directories and
  -- overwrites the same file with the same content
  · intro q
    set fs1 := fsM.insert (segsRel path) (.file content) with hfs1
    have h1char : ∀ r, fs1.lookup r =
        if r = segsRel path then some (.file content)
        else if r ∈ prefixesNE (segsRel path).dropLast then some FEntry.dir
        else fs.lookup r := by
      intro r
      rw [hfs1, Fs.lookup_insert]
      by_cases hr : r = segsRel path
      · simp [hr]
      · simp only [hr, if_false]
        exact hchar r
    obtain ⟨hstep2⟩ : (if !((segsRel path).dropLast = [] : Bool) then
        makedirs fs1 (segsRel path).dropLast true else (fs1, none)) =
        (fs1, none) ∧ True := by
      by_cases hpar : (segsRel path).dropLast = []
      · simp [hpar]
      · have halldir : ∀ r ∈ prefixesNE (segsRel path).dropLast,
            fs1.lookup r = some FEntry.dir := by
          intro r hr
          rw [h1char r]
          have : ¬ r = segsRel path := hlen r hr
          simp [this, hr]
        simp only [hpar, decide_False, Bool.not_false, if_true, makedirs,
          Bool.false_and, Bool.false_eq_true, if_false]
        exact ⟨makedirsList_alldirs fs1 _ halldir, trivial⟩
    have h1parent : fs1.pyIsdir (segsRel path).dropLast = true := by
      by_cases hpar : (segsRel path).dropLast = []
      · simp [Fs.pyIsdir, hpar]
      · have hm : (segsRel path).dropLast ∈ prefixesNE (segsRel path).dropLast :=
          self_mem_prefixesNE _ hpar
        have : fs1.lookup (segsRel path).dropLast = some FEntry.dir := by
          rw [h1char]
          have : ¬ (segsRel path).dropLast = segsRel path := hlen _ hm
          simp [this, hm]
        simp [Fs.pyIsdir, Fs.isdir, this]
    have h1segs : fs1.lookup (segsRel path) = some (.file content) := by
      rw [h1char]
      simp
    have how2 : openWrite fs1 (segsRel path) content =
        (fs1.insert (segsRel path) (.file content), none) := by
      unfold openWrite
      have hcond : (fs1.pyIsdir (segsRel path).dropLast &&
          !(fs1.lookup (segsRel path) = some FEntry.dir : Bool) &&
          !((segsRel path) = [] : Bool)) = true := by
        rw [h1parent, h1segs]
        simp [h0]
      rw [hcond]
      simp
    have hw2 : write_file fs1 path content =
        ("File \x27" ++ path ++ "\x27 written successfully.",
          fs1.insert (segsRel path) (.file content), false) := by
      unfold write_file
      simp only [hstep2, how2]
    rw [hw2]
    rw [Fs.lookup_insert]
    by_cases hq : q = segsRel path
    · subst hq
      simp [h1segs]
    · simp [hq]

/-- Witness for `c9_write_file_parents_and_idempotence` at a concrete
input: writing `a/b/c.txt` into an empty filesystem. -/
theorem c9_write_file_witness :
    segsRel "a/b/c.txt" ≠ [] ∧
    (∀ q ∈ prefixesNE (segsRel "a/b/c.txt").dropLast, (⟨[]⟩ : Fs).lookup q = none) ∧
    (write_file ⟨[]⟩ "a/b/c.txt" "hello").2.2 = false := by
  refine ⟨by decide, by decide, ?_⟩
  exact (c9_write_file_parents_and_idempotence ⟨[]⟩ "a/b/c.txt" "hello" (by decide)
    (by decide) (by decide)).1


/-!
Claim C4.  A successful `POST /files/content` resolves the same strings as
the subsequent `GET /files/content`, the project directory survives the
write, and the read returns the freshly inserted content.
-/

theorem makedirsList_lookup_or (fs : Fs) (ps : List FPath) (q : FPath) :
    (makedirsList fs ps).1.lookup q = fs.lookup q ∨
    (makedirsList fs ps).1.lookup q = some FEntry.dir := by
  induction ps generalizing fs with
  | nil => exact Or.inl rfl
  | cons p rest ih =>
    unfold makedirsList
    cases hl : fs.lookup p with
    | none =>
      rcases ih (fs.insert p .dir) with h | h
      · rw [h, Fs.lookup_insert]
        by_cases hq : q = p
        · exact Or.inr (by simp [hq])
        · exact Or.inl (by simp [hq])
      · exact Or.inr h
    | some e =>
      cases e with
      | file c => exact Or.inl rfl
      | dir => exact ih fs

/-- Structure of a successful `write_file_content`: some parent-creation
step turned only missing paths into directories, the open succeeded, and
the result is the file inserted over that intermediate filesystem. -/
theorem write_file_content_ok (fs : Fs) (fp c : String) (fs2 : Fs)
    (h : write_file_content fs fp c = .ok fs2) :
    ∃ fsM : Fs, (∀ q, fsM.lookup q = fs.lookup q ∨ fsM.lookup q = some FEntry.dir) ∧
      (fsM.pyIsdir (segsOf fp).dropLast &&
        !(fsM.lookup (segsOf fp) = some FEntry.dir : Bool) &&
        !((segsOf fp) = [] : Bool)) = true ∧
      fs2 = fsM.insert (segsOf fp) (.file c) := by
  simp only [write_file_content] at h
  by_cases hex : fs.pyExists (segsOf fp).dropLast = true
  · simp only [hex, Bool.not_true, Bool.false_eq_true, if_false] at h
    cases how : openWrite fs (segsOf fp) c with
    | mk fso erro =>
      rw [how] at h
      cases erro with
      | none =>
        obtain ⟨hc, hfs⟩ := openWrite_ok fs (segsOf fp) c fso how
        cases h
        exact ⟨fs, fun q => Or.inl rfl, hc, hfs⟩
      | some m => cases h
  · rw [Bool.not_eq_true] at hex
    have hex2 : (!fs.pyExists (List.dropLast (segsOf fp))) = true := by
      rw [hex]; rfl
    simp only [hex2, if_true, makedirs, Bool.not_false, Bool.true_and, hex,
      Bool.false_eq_true, if_false] at h
    cases hmk : makedirsList fs (prefixesNE (segsOf fp).dropLast) with
    | mk fsM errM =>
      rw [hmk] at h
      cases errM with
      | some m => cases h
      | none =>
        cases how : openWrite fsM (segsOf fp) c with
        | mk fso erro =>
          rw [how] at h
          cases erro with
          | some m => cases h
          | none =>
            obtain ⟨hc, hfs⟩ := openWrite_ok fsM (segsOf fp) c fso how
            cases h
            refine ⟨fsM, ?_, hc, hfs⟩
            intro q
            have hor := makedirsList_lookup_or fs (prefixesNE (segsOf fp).dropLast) q
            rw [hmk] at hor
            exact hor

/-- Claim C4: writing a file pair through `POST /files/content` and then
reading the same pair through `GET /files/content` returns exactly the
content that was written. -/
theorem c4_read_after_write (fs : Fs) (outRoot project rel content msg : String)
    (fs2 : Fs)
    (h : write_file_content_endpoint fs outRoot project rel content = (.ok msg, fs2)) :
    get_file_content fs2 outRoot project rel = .ok content := by
  simp only [write_file_content_endpoint] at h
  cases hs : get_safe_project_path fs outRoot project with
  | error e => rw [hs] at h; simp at h
  | ok pp =>
    rw [hs] at h
    obtain ⟨hpp, hpre, hdir⟩ := get_safe_project_path_ok fs outRoot project pp hs
    subst hpp
    by_cases hchk : startsWithStr (pyAbspath (pyJoin (pyAbspath (pyJoin outRoot project)) rel))
        (pyAbspath (pyJoin outRoot project)) = true
    · simp only [hchk, Bool.not_true, Bool.false_eq_true, if_false] at h
      cases hwr : write_file_content fs
          (pyAbspath (pyJoin (pyAbspath (pyJoin outRoot project)) rel)) content with
      | error e =>
        rw [hwr] at h
        cases e with
        | fileNotFound => simp at h
        | other m => simp at h
      | ok fs2w =>
        rw [hwr] at h
        have hfs2 : fs2w = fs2 := congrArg Prod.snd h
        subst hfs2
        obtain ⟨fsM, hMchar, hcond, hw⟩ := write_file_content_ok fs
          (pyAbspath (pyJoin (pyAbspath (pyJoin outRoot project)) rel)) content fs2w hwr
        simp only [Bool.and_eq_true, Bool.not_eq_true] at hcond
        obtain ⟨⟨hA, hB⟩, hC⟩ := hcond
        have hBne : fsM.lookup (segsOf (pyAbspath (pyJoin (pyAbspath (pyJoin outRoot project)) rel))) ≠
            some FEntry.dir := by
          intro hx
          rw [hx] at hB
          simp at hB
        -- project directory survives the write
        have hdir2 : fs2w.pyIsdir (segsOf (pyAbspath (pyJoin outRoot project))) = true := by
          by_cases hP : segsOf (pyAbspath (pyJoin outRoot project)) = []
          · simp [Fs.pyIsdir, hP]
          · have hfsdir : fs.lookup (segsOf (pyAbspath (pyJoin outRoot project))) =
                some FEntry.dir := by
              simp [Fs.pyIsdir, Fs.isdir, hP] at hdir
              exact hdir
            have hMdir : fsM.lookup (segsOf (pyAbspath (pyJoin outRoot project))) =
                some FEntry.dir := by
              rcases hMchar (segsOf (pyAbspath (pyJoin outRoot project))) with hh | hh
              · rw [hh, hfsdir]
              · exact hh
            have hkey : segsOf (pyAbspath (pyJoin outRoot project)) ≠
                segsOf (pyAbspath (pyJoin (pyAbspath (pyJoin outRoot project)) rel)) := by
              intro he
              rw [← he] at hBne
              exact hBne hMdir
            have : fs2w.lookup (segsOf (pyAbspath (pyJoin outRoot project))) =
                some FEntry.dir := by
              rw [hw, Fs.lookup_insert]
              simp only [hkey, if_false]
              exact hMdir
            simp [Fs.pyIsdir, Fs.isdir, this]
        have hsafe2 : get_safe_project_path fs2w outRoot project =
            .ok (pyAbspath (pyJoin outRoot project)) := by
          simp [get_safe_project_path, hpre, hdir2]
        have hfile : fs2w.lookup (segsOf (pyAbspath (pyJoin (pyAbspath (pyJoin outRoot project)) rel))) =
            some (.file content) := by
          rw [hw]
          exact Fs.lookup_insert_self _ _ _
        have hread : read_file_content fs2w
            (pyAbspath (pyJoin (pyAbspath (pyJoin outRoot project)) rel)) = .ok content := by
          simp only [read_file_content, Fs.pyExists, Fs.existsP, hfile, Option.isSome_some,
            Bool.or_true, Bool.not_true, Bool.false_eq_true, if_false, openRead]
        simp only [get_file_content, hsafe2, hchk, Bool.not_true, Bool.false_eq_true,
          if_false, hread]
    · rw [Bool.not_eq_true] at hchk
      simp only [hchk, Bool.not_false, if_true] at h
      simp at h


/-- Filesystem with an existing project `proj` under the output root. -/
def fsC4 : Fs := ⟨[(["out"], .dir), (["out", "proj"], .dir)]⟩

/-- Witness for `c4_read_after_write` at a concrete input. -/
theorem c4_read_after_write_witness :
    write_file_content_endpoint fsC4 "/out" "proj" "sub/new.txt" "hello" =
      (.ok "File \x27sub/new.txt\x27 saved successfully.",
        (write_file_content_endpoint fsC4 "/out" "proj" "sub/new.txt" "hello").2) ∧
    get_file_content (write_file_content_endpoint fsC4 "/out" "proj" "sub/new.txt" "hello").2
      "/out" "proj" "sub/new.txt" = .ok "hello" := by
  refine ⟨by rfl, ?_⟩
  exact c4_read_after_write fsC4 "/out" "proj" "sub/new.txt" "hello"
    "File \x27sub/new.txt\x27 saved successfully."
    (write_file_content_endpoint fsC4 "/out" "proj" "sub/new.txt" "hello").2 (by rfl)



/-!
Claim C10.  `list_directory_recursive` computes each node path as
`os.path.relpath(entry.path, start=os.path.dirname(path))`, so at every
recursion level a node path is the listed directory name followed by the
entry name: exactly two segments, never a path relative to the project or
output root.  `nodesOkFuel` checks this shape recursively (the fuel is a
termination device; the theorem holds for every fuel).
-/

/-- Bounded-depth checker of the C10 path shape: at every level each node
path has exactly two segments and each child path is the parent name
followed by the child name. -/
def nodesOkFuel : Nat → List Node → Bool
| 0, _ => true
| cf + 1, ns => ns.all (fun nd => ((nd.path.length = 2 : Bool)) &&
    nd.children.all (fun c => (c.path = [nd.name, c.name] : Bool)) &&
    nodesOkFuel cf nd.children)

theorem nodesOkFuel_nil (cf : Nat) : nodesOkFuel cf [] = true := by
  cases cf <;> rfl

theorem commonPrefixLen_append (q ys : List String) :
    commonPrefixLen (q ++ ys) q = q.length := by
  induction q with
  | nil => cases ys <;> rfl
  | cons a as ih => simp [commonPrefixLen, ih, Nat.add_comm]

theorem relpathSegs_concat (p : FPath) (n : String) (hp : p ≠ []) :
    relpathSegs (p ++ [n]) p.dropLast = [p.getLastD "", n] := by
  obtain ⟨q, b, rfl⟩ := (List.eq_nil_or_concat p).resolve_left hp
  rw [List.concat_eq_append, List.dropLast_concat]
  have hassoc : (q ++ [b]) ++ [n] = q ++ [b, n] := by simp
  rw [hassoc, relpathSegs, commonPrefixLen_append]
  simp [List.drop_left]

theorem childEntries_shape (fs : Fs) (p : FPath) (e : FPath × FEntry)
    (he : e ∈ childEntries fs p) : ∃ b, e.1 = p ++ [b] := by
  have hmem := List.of_mem_filter he
  simp only [Bool.and_eq_true, decide_eq_true_eq, Bool.not_eq_true] at hmem
  obtain ⟨h1, h2⟩ := hmem
  have hne : e.1 ≠ [] := by
    intro hx
    rw [hx] at h1
    simp at h1
  obtain ⟨q, b, hqb⟩ := (List.eq_nil_or_concat e.1).resolve_left hne
  rw [List.concat_eq_append] at hqb
  refine ⟨b, ?_⟩
  rw [hqb]
  rw [hqb, List.dropLast_concat] at h2
  rw [h2]

theorem list_directory_recursive_paths (fs : Fs) (n : Nat) (p : FPath) (hp : p ≠ []) :
    (list_directory_recursive fs n p).all
      (fun nd => (nd.path = [p.getLastD "", nd.name] : Bool)) = true := by
  cases n with
  | zero => rfl
  | succ n =>
    rw [List.all_eq_true]
    intro nd hnd
    simp only [list_directory_recursive, List.mem_map] at hnd
    obtain ⟨e, he, rfl⟩ := hnd
    obtain ⟨b, hb⟩ := childEntries_shape fs p e he
    simp only [Node.path, Node.name, hb, relpathSegs_concat p b hp,
      List.getLastD_concat, decide_eq_true_eq]

/-- Claim C10: in the tree computed by `list_directory_recursive` (as
served by `GET /files/tree`), every node at every depth carries a `path`
of exactly two segments — the name of the directory being listed at that
recursion level followed by the node's own name — and in particular the
top-level nodes' paths are relative to the parent of the listed directory,
not to the output root. -/
theorem c10_node_paths_two_segments (fs : Fs) (cf n : Nat) (p : FPath)
    (hp : p ≠ []) :
    nodesOkFuel cf (list_directory_recursive fs n p) = true ∧
    (list_directory_recursive fs n p).all
      (fun nd => (nd.path = [p.getLastD "", nd.name] : Bool)) = true := by
  refine ⟨?_, list_directory_recursive_paths fs n p hp⟩
  induction cf generalizing n p with
  | zero => rfl
  | succ cf ih =>
    cases n with
    | zero => exact nodesOkFuel_nil _
    | succ n =>
      simp only [nodesOkFuel]
      rw [List.all_eq_true]
      intro nd hnd
      simp only [list_directory_recursive, List.mem_map] at hnd
      obtain ⟨e, he, rfl⟩ := hnd
      obtain ⟨b, hb⟩ := childEntries_shape fs p e he
      have hpath : relpathSegs e.1 p.dropLast = [p.getLastD "", b] := by
        rw [hb]
        exact relpathSegs_concat p b hp
      simp only [Node.path, Node.name, Node.children, hpath, Bool.and_eq_true]
      refine ⟨⟨by simp, ?_⟩, ?_⟩
      · by_cases hdir : e.2 = FEntry.dir
        · simp only [hdir, decide_True, if_true, hb, List.getLastD_concat]
          have hall := list_directory_recursive_paths fs n (p ++ [b]) (by simp)
          simp only [List.getLastD_concat] at hall
          exact hall
        · simp [hdir]
      · by_cases hdir : e.2 = FEntry.dir
        · simp only [hdir, decide_True, if_true]
          exact ih n e.1 (by rw [hb]; simp)
        · simp only [hdir, decide_False, Bool.false_eq_true, if_false]
          exact nodesOkFuel_nil _

/-- Output root with a project `proj` holding a nested tree. -/
def fsC10 : Fs :=
  ⟨[(["out"], .dir), (["out", "proj"], .dir), (["out", "proj", "src"], .dir),
    (["out", "proj", "src", "App.jsx"], .file "app"),
    (["out", "proj", "package.json"], .file "pkg")]⟩

/-- Witness for `c10_node_paths_two_segments` at a concrete input. -/
theorem c10_node_paths_two_segments_witness :
    (["out", "proj"] : FPath) ≠ [] ∧
    nodesOkFuel 4 (list_directory_recursive fsC10 4 ["out", "proj"]) = true := by
  refine ⟨by decide, (c10_node_paths_two_segments fsC10 4 4 ["out", "proj"] (by decide)).1⟩


end CodeGen
